import Mathlib

/-!
Verification of the preference matching & ranking engine of the housing
recommendation service (`src/app.py`).

The engine consists of four functions:

* `get_filters`            — normalizes one participant record into a filters
                             dictionary (the spec's Attribute Normalizer);
* `calculate_match_percentage` — scores a (housing, university) pair of
                             filters dictionaries (the Compatibility Scorer);
* `get_all_houses`         — lists the UUIDs of all housing participants
                             (the Listing Directory read);
* `get_all_probas`         — ranks all housing candidates for one university
                             seeker (the Candidate Ranker).

The embedding below is a direct translation of those functions.  Python
dictionaries with the five recognized keys become the `Filters` structure
whose fields are `Option PyVal` (`Option.none` = key absent, `some v` = key
present with Python value `v`); exceptions become explicit `Except` values or
early `0` results exactly where the Python `try/except` blocks put them; the
floating-point percentage is modelled with exact rationals (`Rat`).
-/

/-- A Python value as it can occur in a filters dictionary entry produced by
`get_filters` or stored in a participant record: `None`, a string, or an
integer. -/
inductive PyVal where
| vnone : PyVal
| vstr : String → PyVal
| vint : Int → PyVal
deriving DecidableEq

/-- A filters dictionary over the five recognized keys of `app.py`
(`fields_to_process`).  `Option.none` models an absent key (as in the `{}`
returned for an invalid or unknown UUID); `some PyVal.vnone` models a key that
is present but bound to Python `None`. -/
structure Filters where
  animais_estimacao : Option PyVal
  preferencia_genero : Option PyVal
  numero_maximo_pessoas : Option PyVal
  frequencia_fumo : Option PyVal
  frequencia_bebida : Option PyVal
deriving DecidableEq

/-- The Python empty dict `{}` seen as a `Filters` value: every key absent. -/
def emptyFilters : Filters :=
  ⟨Option.none, Option.none, Option.none, Option.none, Option.none⟩

/-- Test `leadsWith n l` : the list `n` is an initial segment of `l`. -/
def leadsWith : List Char → List Char → Bool
| [], _ => true
| _ :: _, [] => false
| a :: as, b :: bs => a == b && leadsWith as bs

/-- Test `occursIn n l` : the list `n` occurs contiguously somewhere inside `l`.
Together with `pyInStr` this models Python's substring test `n in l`. -/
def occursIn (needle : List Char) : List Char → Bool
| [] => leadsWith needle []
| b :: bs => leadsWith needle (b :: bs) || occursIn needle bs

/-- Python's `needle in hay` on strings: substring containment. -/
def pyInStr (needle hay : String) : Bool :=
  occursIn needle.toList hay.toList

/-- Outcome of the pet-tolerance block of `calculate_match_percentage`
(lines 134–145): the expression
`housing.get('animais_estimacao', []) + university.get('animais_estimacao', [])`
followed by the membership tests.

* both keys absent → `[] + []` is `[]`, no label is in it → no special
  handling (`plain`);
* both values strings → string concatenation, then Python substring tests:
  `'Alergia' in s ++ t` vetoes, else the two love labels give the bonus
  branch, else `plain`;
* any other combination → `+` raises `TypeError` (str/list/None/int mixes),
  or for two ints the later `in` raises `TypeError`; either way the outer
  `except Exception` handler returns `0.0` (`raise`). -/
inductive PetOutcome where
| raise : PetOutcome
| veto : PetOutcome
| bonus : PetOutcome
| plain : PetOutcome
deriving DecidableEq

/-- The pet-tolerance block, see `PetOutcome`. -/
def petStage (a b : Option PyVal) : PetOutcome :=
  match a, b with
  | Option.none, Option.none => PetOutcome.plain
  | some (PyVal.vstr s), some (PyVal.vstr t) =>
      if pyInStr "Alergia" (s ++ t) then PetOutcome.veto
      else if pyInStr "Gosto muito" (s ++ t) || pyInStr "Não tenho, mas amo" (s ++ t) then
        PetOutcome.bonus
      else PetOutcome.plain
  | _, _ => PetOutcome.raise

/-- The two ways Python's `int(...)` coercion in the occupancy block can
fail: `int` of an unparseable string raises `ValueError` (caught by the
inner handler), `int(None)` raises `TypeError` (not caught there). -/
inductive PyErr where
| valueError : PyErr
| typeError : PyErr
deriving DecidableEq

/-- The digits of a decimal literal, or failure.  Helper for `parseIntPy`. -/
def digitsToNat (cs : List Char) : Option Nat :=
  if cs = [] then Option.none
  else if cs.all Char.isDigit then
    some (cs.foldl (fun a c => a * 10 + (c.toNat - 48)) 0)
  else Option.none

/-- Models Python's built-in `int()` applied to a `str`: optional surrounding
whitespace, an optional single sign, then decimal digits (digit-group
underscores and non-ASCII digits are not modelled; they do not occur in the
category labels this service stores). `Option.none` models `ValueError`. -/
def parseIntPy (s : String) : Option Int :=
  let core := ((s.toList.dropWhile Char.isWhitespace).reverse.dropWhile Char.isWhitespace).reverse
  match core with
  | '+' :: rest => (digitsToNat rest).map (fun n => (n : Int))
  | '-' :: rest => (digitsToNat rest).map (fun n => -(n : Int))
  | rest => (digitsToNat rest).map (fun n => (n : Int))

/-- Coercion `int(d.get('numero_maximo_pessoas', 0))` for one side: an absent key
gives the default `0`; an int passes through; a string is parsed
(`ValueError` on failure); `None` raises `TypeError`. -/
def pyInt : Option PyVal → Except PyErr Int
| Option.none => Except.ok 0
| some (PyVal.vint n) => Except.ok n
| some (PyVal.vstr s) =>
    match parseIntPy s with
    | some n => Except.ok n
    | Option.none => Except.error PyErr.valueError
| some PyVal.vnone => Except.error PyErr.typeError

/-- The occupancy block (lines 160–172).  `Except.ok m` says the `try` body
ran to the end or was stopped by a caught `ValueError`, with `m` recording
whether `matched_filters` was incremented (`housing_max <= university_max`);
`Except.error ()` says a `TypeError` escaped to the outer handler (score
`0.0`).  The housing side is coerced first, so a housing-side `ValueError`
skips the university-side coercion entirely, exactly as in Python. -/
def occStage (a b : Option PyVal) : Except Unit Bool :=
  match pyInt a with
  | Except.error PyErr.typeError => Except.error ()
  | Except.error PyErr.valueError => Except.ok false
  | Except.ok m =>
      match pyInt b with
      | Except.error PyErr.typeError => Except.error ()
      | Except.error PyErr.valueError => Except.ok false
      | Except.ok n => Except.ok (decide (m ≤ n))

/-- Read `d.get(field)` with Python's default `None`. -/
def pyGet (o : Option PyVal) : PyVal :=
  o.getD PyVal.vnone

/-- Test `'Tanto faz' in [housing.get('preferencia_genero', ''), university.get('preferencia_genero', '')]`:
list membership is equality against each element; only a present string equal
to `"Tanto faz"` matches (the `''` default, `None` and ints never do). -/
def genderWildcard (a b : Option PyVal) : Bool :=
  decide (a = some (PyVal.vstr "Tanto faz")) || decide (b = some (PyVal.vstr "Tanto faz"))

/-- One iteration of the remaining-fields loop (lines 181–185):
`housing.get(field) == university.get(field)`, where both defaults are
`None`, so two absent (or popped) keys compare equal. -/
def scalarEq (a b : Option PyVal) : Bool :=
  decide (pyGet a = pyGet b)

/-- Effect of `d.pop(key, None)` as seen by later reads: key gone when `b` is true. -/
def popIf (b : Bool) (v : Option PyVal) : Option PyVal :=
  if b then Option.none else v

/-- Counter increment `if b then 1 else 0`. -/
def b2n (b : Bool) : Nat :=
  if b then 1 else 0

/-- Lines 187–195: guard against a zero total, then
`matched_filters / total_filters * 100` (exact rational in place of the
Python float). -/
def tallyScore (matched total : Nat) : Rat :=
  if total = 0 then 0 else (matched : Rat) / (total : Rat) * 100

/-- Body of `calculate_match_percentage` after the pet block, with `petBonus`
recording whether the bonus branch incremented both counters and popped the
key.  Order of the remaining blocks follows the source: gender wildcard,
occupancy (whose `TypeError` aborts to the outer handler, score `0`),
then the three-field loop, then the percentage. -/
def scoreAfterPets (petBonus : Bool) (h u : Filters) : Rat :=
  let gw := genderWildcard h.preferencia_genero u.preferencia_genero
  match occStage h.numero_maximo_pessoas u.numero_maximo_pessoas with
  | Except.error _ => 0
  | Except.ok occ =>
      let matched := b2n petBonus + b2n gw + b2n occ
        + b2n (scalarEq (popIf gw h.preferencia_genero) (popIf gw u.preferencia_genero))
        + b2n (scalarEq h.frequencia_fumo u.frequencia_fumo)
        + b2n (scalarEq h.frequencia_bebida u.frequencia_bebida)
      let total := b2n petBonus + b2n gw + 4
      tallyScore matched total

/-- Function `calculate_match_percentage(housing_filters, university_filters)`
(lines 117–198).  A `raise` from the pet block or the occupancy block is the
outer `except Exception` handler returning `0.0`; `veto` is the explicit
`return 0.0` for `'Alergia'`. -/
def calculate_match_percentage (h u : Filters) : Rat :=
  match petStage h.animais_estimacao u.animais_estimacao with
  | PetOutcome.raise => 0
  | PetOutcome.veto => 0
  | PetOutcome.bonus => scoreAfterPets true h u
  | PetOutcome.plain => scoreAfterPets false h u

/-- A raw participant record as `get_filters` reads it, restricted to the
five processed fields.  `Option.none` models an absent field
(`user.get(field)` then yields `None`); other document fields are never read
and are omitted. -/
structure RawRecord where
  animais_estimacao : Option PyVal
  preferencia_genero : Option PyVal
  numero_maximo_pessoas : Option PyVal
  frequencia_fumo : Option PyVal
  frequencia_bebida : Option PyVal
deriving DecidableEq

/-- What the identifier-and-store interaction of `get_filters` (lines 76–95)
can come to: `uuid.UUID(uuid_str)` raises `ValueError` (`invalidUuid`),
`find_one` returns nothing (`notFound`), `find_one` raises (`lookupError`),
or a record is found. -/
inductive LookupOutcome where
| invalidUuid : LookupOutcome
| notFound : LookupOutcome
| lookupError : LookupOutcome
| found : RawRecord → LookupOutcome
deriving DecidableEq

/-- Cleanup `value.replace('[', '').replace(']', '')`: every `[` and `]` character is
removed. -/
def stripBrackets (s : String) : String :=
  String.mk (s.toList.filter (fun c => !(c == '[') && !(c == ']')))

/-- Lines 107–112: one field of a found record.  An absent field becomes a
present key bound to `None`; a string field has its brackets stripped; any
other value is stored verbatim. -/
def cleanField (v : Option PyVal) : PyVal :=
  match v with
  | Option.none => PyVal.vnone
  | some (PyVal.vstr s) => PyVal.vstr (stripBrackets s)
  | some w => w

/-- Function `get_filters(uuid_str)` (lines 62–115), with the identifier parse and the
store lookup abstracted into the `LookupOutcome` argument.  An invalid UUID,
a missing record and a store error all `return {}` (every key absent); a
found record yields a dictionary in which all five keys are present. -/
def get_filters (o : LookupOutcome) : Filters :=
  match o with
  | LookupOutcome.found r =>
      ⟨some (cleanField r.animais_estimacao),
       some (cleanField r.preferencia_genero),
       some (cleanField r.numero_maximo_pessoas),
       some (cleanField r.frequencia_fumo),
       some (cleanField r.frequencia_bebida)⟩
  | _ => emptyFilters

/-- Lower-case hex digit of `n < 16`, as used by `str(uuid.UUID(...))`. -/
def hexDigit (n : Nat) : Char :=
  if n < 10 then Char.ofNat (48 + n) else Char.ofNat (87 + n)

/-- The two hex digits of one byte. -/
def byteHex (b : Nat) : List Char :=
  [hexDigit (b / 16 % 16), hexDigit (b % 16)]

/-- Hex expansion of a byte string. -/
def bytesHexChars (bs : List Nat) : List Char :=
  bs.foldr (fun b acc => byteHex b ++ acc) []

/-- Rendering `str(uuid.UUID(bytes=bs))` for a 16-byte string: 32 hex characters in
8-4-4-4-12 groups separated by dashes. -/
def uuidStrOfBytes (bs : List Nat) : String :=
  let hx := bytesHexChars bs
  String.mk (hx.take 8 ++ ['-'] ++ (hx.drop 8).take 4 ++ ['-'] ++ (hx.drop 12).take 4
    ++ ['-'] ++ (hx.drop 16).take 4 ++ ['-'] ++ hx.drop 20)

/-- One document of the `get_all_houses` cursor, projected to its
`idUsuarioMoradia` field: `Option.none` when the field is absent, otherwise
the bytes of the stored Binary value (lines 218–228).  A falsy value (empty
bytes) is skipped by `if binary_uuid:`; a wrong-length value makes
`uuid.UUID(bytes=...)` raise and is skipped by the inner handler. -/
def docUuid (d : Option (List Nat)) : Option String :=
  match d with
  | Option.none => Option.none
  | some bs =>
      if bs = [] then Option.none
      else if bs.length = 16 then some (uuidStrOfBytes bs)
      else Option.none

/-- Function `get_all_houses()` (lines 200–235), with the `find` call abstracted into
the `dirResult` argument: a raised exception (`Except.error`) is caught and
returns `[]`; otherwise each document contributes its converted UUID string,
skipping absent/falsy/unconvertible fields, in cursor order. -/
def get_all_houses (dirResult : Except Unit (List (Option (List Nat)))) : List String :=
  match dirResult with
  | Except.error _ => []
  | Except.ok docs => docs.filterMap docUuid

/-- Function `get_all_probas(university_uuid)` (lines 237–275), with the store
abstracted as a map from identifier to `LookupOutcome`.  For each housing
identifier, in directory order, both sides are normalized (the university
side re-fetched each iteration, as in the source) and scored; the pairs are
appended in iteration order and never sorted. -/
def get_all_probas (dirResult : Except Unit (List (Option (List Nat))))
    (store : String → LookupOutcome) (university_uuid : String) : List (String × Rat) :=
  (get_all_houses dirResult).map (fun houseId =>
    (houseId, calculate_match_percentage (get_filters (store houseId))
      (get_filters (store university_uuid))))

/-- Predicate `petAlergia f` : the pet-tolerance key of `f` is present and its string
value contains the label `"Alergia"` as a substring. -/
def petAlergia (f : Filters) : Prop :=
  ∃ s, f.animais_estimacao = some (PyVal.vstr s) ∧ pyInStr "Alergia" s = true

/-- All five recognized keys are present in the dictionary. -/
def allKeysPresent (f : Filters) : Prop :=
  f.animais_estimacao.isSome = true ∧ f.preferencia_genero.isSome = true
    ∧ f.numero_maximo_pessoas.isSome = true ∧ f.frequencia_fumo.isSome = true
    ∧ f.frequencia_bebida.isSome = true

/-- The occupancy coercion fails with `ValueError` (and not `TypeError`):
either the housing-side value is an unparseable string, or the housing side
coerces fine and the university-side value is an unparseable string.  These
are exactly the runs in which the inner `except ValueError` handler fires. -/
def occValueError (a b : Option PyVal) : Prop :=
  (∃ s, a = some (PyVal.vstr s) ∧ parseIntPy s = Option.none)
    ∨ ((∃ n, pyInt a = Except.ok n) ∧ ∃ s, b = some (PyVal.vstr s) ∧ parseIntPy s = Option.none)

/-- The scoring run raises an exception that reaches the outer
`except Exception` handler of `calculate_match_percentage`: a `TypeError`
from the pet-tolerance `+`/`in` expressions, or a `TypeError` from
`int(None)` in the occupancy block (reached only when the pet block neither
raised nor vetoed). -/
def scorerRaises (h u : Filters) : Bool :=
  match petStage h.animais_estimacao u.animais_estimacao with
  | PetOutcome.raise => true
  | PetOutcome.veto => false
  | _ =>
      match occStage h.numero_maximo_pessoas u.numero_maximo_pessoas with
      | Except.error _ => true
      | Except.ok _ => false

/-- Concrete pair for the hard-veto rule: a housing side declaring
`"Alergia"` against a university side with an empty pet string. -/
def alergiaFilters : Filters :=
  ⟨some (PyVal.vstr "Alergia"), Option.none, Option.none, Option.none, Option.none⟩

/-- University side with an (empty) pet string, so the pet `+` succeeds. -/
def emptyPetStrFilters : Filters :=
  ⟨some (PyVal.vstr ""), Option.none, Option.none, Option.none, Option.none⟩

/-- The spec's worked example, candidate (housing) side, in the source's
Portuguese labels: pets `"Gosto muito"` (Love it), gender `"Só mulheres"`
(Women only), occupancy `"2"`, smoking `"Nunca"` (Never), drinking
`"Nunca"` (Never). -/
def exampleHousing : Filters :=
  ⟨some (PyVal.vstr "Gosto muito"), some (PyVal.vstr "Só mulheres"),
   some (PyVal.vstr "2"), some (PyVal.vstr "Nunca"), some (PyVal.vstr "Nunca")⟩

/-- The spec's worked example, seeker (university) side: pets
`"Tanto faz"` (No preference), gender `"Tanto faz"` (No preference),
occupancy `"3"`, smoking `"Nunca"` (Never), drinking `"Ocasionalmente"`
(Occasionally). -/
def exampleUniversity : Filters :=
  ⟨some (PyVal.vstr "Tanto faz"), some (PyVal.vstr "Tanto faz"),
   some (PyVal.vstr "3"), some (PyVal.vstr "Nunca"), some (PyVal.vstr "Ocasionalmente")⟩

/-- Gender-wildcard probe, housing side: gender `"Tanto faz"`, smoking
`"Nunca"`; everything else absent. -/
def wildcardHousing : Filters :=
  ⟨Option.none, some (PyVal.vstr "Tanto faz"), Option.none,
   some (PyVal.vstr "Nunca"), Option.none⟩

/-- Gender-wildcard probe, university side: gender `"Só mulheres"`, smoking
`"Sempre"`; everything else absent. -/
def wildcardUniversity : Filters :=
  ⟨Option.none, some (PyVal.vstr "Só mulheres"), Option.none,
   some (PyVal.vstr "Sempre"), Option.none⟩

/-- Found record whose `numero_maximo_pessoas` field is Python `None`
(via `cleanField` of an absent source field) — `int(None)` raises
`TypeError`. -/
def noneOccupancyFilters : Filters :=
  ⟨Option.none, Option.none, some PyVal.vnone, Option.none, Option.none⟩

/-- Filters whose occupancy is the unparseable string `"dois"`. -/
def wordOccupancyFilters : Filters :=
  ⟨Option.none, Option.none, some (PyVal.vstr "dois"), Option.none, Option.none⟩

/-- Pets `"Al"` only: harmless alone, vetoing when concatenated before
`"ergia"`. -/
def petsAlFilters : Filters :=
  ⟨some (PyVal.vstr "Al"), Option.none, Option.none, Option.none, Option.none⟩

/-- Pets `"ergia"` only. -/
def petsErgiaFilters : Filters :=
  ⟨some (PyVal.vstr "ergia"), Option.none, Option.none, Option.none, Option.none⟩

/-- Pets `"xxAl"` only: does not equal and does not even contain
`"Alergia"`. -/
def petsXxAlFilters : Filters :=
  ⟨some (PyVal.vstr "xxAl"), Option.none, Option.none, Option.none, Option.none⟩

/-- Pets `"ergiayy"` only. -/
def petsErgiayyFilters : Filters :=
  ⟨some (PyVal.vstr "ergiayy"), Option.none, Option.none, Option.none, Option.none⟩

/-- Housing side for the symmetry witness: smoking `"Nunca"` only. -/
def smokeOnlyFilters : Filters :=
  ⟨Option.none, Option.none, Option.none, some (PyVal.vstr "Nunca"), Option.none⟩

/-- University side for the symmetry witness: drinking `"Nunca"` only. -/
def drinkOnlyFilters : Filters :=
  ⟨Option.none, Option.none, Option.none, Option.none, some (PyVal.vstr "Nunca")⟩

/-- Sixteen zero bytes. -/
def zeroBytes : List Nat :=
  List.replicate 16 0

/-- Fifteen zero bytes followed by a final 1. -/
def oneBytes : List Nat :=
  List.replicate 15 0 ++ [1]

/-- The all-zero UUID string. -/
def uuidZero : String :=
  uuidStrOfBytes zeroBytes

/-- The `...0001` UUID string. -/
def uuidOne : String :=
  uuidStrOfBytes oneBytes

/-- A directory with two housing documents, both carrying valid 16-byte
identifiers. -/
def twoHouseDir : Except Unit (List (Option (List Nat))) :=
  Except.ok [some zeroBytes, some oneBytes]

/-- Record of the first housing participant: pets `"Alergia"`, nothing
else. -/
def alergiaRecord : RawRecord :=
  ⟨some (PyVal.vstr "Alergia"), Option.none, Option.none, Option.none, Option.none⟩

/-- Store for the ranking instance: the all-zero UUID resolves to
`alergiaRecord`; every other identifier (including the seeker) is unknown. -/
def twoHouseStore : String → LookupOutcome :=
  fun s => if s = uuidZero then LookupOutcome.found alergiaRecord else LookupOutcome.notFound

/-- A found record whose `animais_estimacao` is Python `None` — the pet
`+` expression raises `TypeError`. -/
def nonePetFilters : Filters :=
  ⟨some PyVal.vnone, Option.none, Option.none, Option.none, Option.none⟩

/-- An entirely absent source record: after normalization every key is
present and bound to `None`. -/
def blankRecord : RawRecord :=
  ⟨Option.none, Option.none, Option.none, Option.none, Option.none⟩

/-- A true initial-segment test survives appending on the right. -/
theorem leadsWith_append (n l t : List Char) (h : leadsWith n l = true) :
    leadsWith n (l ++ t) = true := by
  induction n generalizing l with
  | nil => rfl
  | cons c cs ih =>
    cases l with
    | nil => simp [leadsWith] at h
    | cons b bs =>
      simp only [List.cons_append, leadsWith, Bool.and_eq_true] at h ⊢
      exact ⟨h.1, ih bs h.2⟩

/-- The empty needle occurs in every haystack. -/
theorem occursIn_nil_needle (l : List Char) : occursIn [] l = true := by
  cases l with
  | nil => rfl
  | cons b bs => simp [occursIn, leadsWith]

/-- An occurrence survives appending on the right. -/
theorem occursIn_append_left (n s t : List Char) (h : occursIn n s = true) :
    occursIn n (s ++ t) = true := by
  induction s with
  | nil =>
    cases n with
    | nil => simpa using occursIn_nil_needle t
    | cons c cs => simp [occursIn, leadsWith] at h
  | cons b bs ih =>
    simp only [occursIn, Bool.or_eq_true] at h
    simp only [List.cons_append, occursIn, Bool.or_eq_true]
    rcases h with h | h
    · exact Or.inl (leadsWith_append n (b :: bs) t h)
    · exact Or.inr (ih h)

/-- An occurrence survives appending on the left. -/
theorem occursIn_append_right (n t s : List Char) (h : occursIn n s = true) :
    occursIn n (t ++ s) = true := by
  induction t with
  | nil => exact h
  | cons b bs ih =>
    simp only [List.cons_append, occursIn, Bool.or_eq_true]
    exact Or.inr ih

/-- String append is list append of the character data. -/
theorem string_toList_append (s t : String) : (s ++ t).toList = s.toList ++ t.toList :=
  rfl

/-- A substring of `s` is a substring of `s ++ t`. -/
theorem pyInStr_append_left (n s t : String) (h : pyInStr n s = true) :
    pyInStr n (s ++ t) = true := by
  unfold pyInStr at h ⊢
  rw [string_toList_append]
  exact occursIn_append_left _ _ _ h

/-- A substring of `s` is a substring of `t ++ s`. -/
theorem pyInStr_append_right (n t s : String) (h : pyInStr n s = true) :
    pyInStr n (t ++ s) = true := by
  unfold pyInStr at h ⊢
  rw [string_toList_append]
  exact occursIn_append_right _ _ _ h

/-- Unfolding of `scoreAfterPets` when the occupancy block does not raise. -/
theorem scoreAfterPets_eq (pb : Bool) (h u : Filters) (occ : Bool)
    (hocc : occStage h.numero_maximo_pessoas u.numero_maximo_pessoas = Except.ok occ) :
    scoreAfterPets pb h u =
      tallyScore
        (b2n pb + b2n (genderWildcard h.preferencia_genero u.preferencia_genero) + b2n occ
          + b2n (scalarEq
              (popIf (genderWildcard h.preferencia_genero u.preferencia_genero) h.preferencia_genero)
              (popIf (genderWildcard h.preferencia_genero u.preferencia_genero) u.preferencia_genero))
          + b2n (scalarEq h.frequencia_fumo u.frequencia_fumo)
          + b2n (scalarEq h.frequencia_bebida u.frequencia_bebida))
        (b2n pb + b2n (genderWildcard h.preferencia_genero u.preferencia_genero) + 4) := by
  unfold scoreAfterPets
  rw [hocc]

/-- Unfolding of `scoreAfterPets` when the occupancy block raises `TypeError`. -/
theorem scoreAfterPets_error (pb : Bool) (h u : Filters)
    (hocc : occStage h.numero_maximo_pessoas u.numero_maximo_pessoas = Except.error ()) :
    scoreAfterPets pb h u = 0 := by
  unfold scoreAfterPets
  rw [hocc]

/-- Value of `b2n` at `false`. -/
theorem b2n_false : b2n false = 0 :=
  rfl

/-- Value of `b2n` at `true`. -/
theorem b2n_true : b2n true = 1 :=
  rfl

/-- Counter increments are at most one. -/
theorem b2n_le_one (b : Bool) : b2n b ≤ 1 := by
  cases b <;> simp [b2n]

/-- The percentage is never negative. -/
theorem tallyScore_nonneg (m t : Nat) : 0 ≤ tallyScore m t := by
  unfold tallyScore
  split
  · exact le_refl 0
  · positivity

/-- The percentage never exceeds 100 when `matched ≤ total`. -/
theorem tallyScore_le_100 (m t : Nat) (h : m ≤ t) : tallyScore m t ≤ 100 := by
  unfold tallyScore
  split
  · norm_num
  · rename_i ht0
    have ht : (0 : Rat) < (t : Rat) := by
      have := Nat.pos_of_ne_zero ht0
      exact_mod_cast this
    have h1 : (m : Rat) / (t : Rat) ≤ 1 := (div_le_one ht).mpr (by exact_mod_cast h)
    calc (m : Rat) / (t : Rat) * 100 ≤ 1 * 100 :=
          mul_le_mul_of_nonneg_right h1 (by norm_num)
      _ = 100 := by norm_num

/-- Every value of `scoreAfterPets` lies in `[0, 100]`. -/
theorem scoreAfterPets_bounds (pb : Bool) (h u : Filters) :
    0 ≤ scoreAfterPets pb h u ∧ scoreAfterPets pb h u ≤ 100 := by
  cases hocc : occStage h.numero_maximo_pessoas u.numero_maximo_pessoas with
  | error e =>
    cases e
    rw [scoreAfterPets_error pb h u hocc]
    norm_num
  | ok occ =>
    rw [scoreAfterPets_eq pb h u occ hocc]
    refine ⟨tallyScore_nonneg _ _, tallyScore_le_100 _ _ ?_⟩
    have h1 := b2n_le_one occ
    have h2 := b2n_le_one (scalarEq
      (popIf (genderWildcard h.preferencia_genero u.preferencia_genero) h.preferencia_genero)
      (popIf (genderWildcard h.preferencia_genero u.preferencia_genero) u.preferencia_genero))
    have h3 := b2n_le_one (scalarEq h.frequencia_fumo u.frequencia_fumo)
    have h4 := b2n_le_one (scalarEq h.frequencia_bebida u.frequencia_bebida)
    omega

/-- C1. For every pair of filters dictionaries, if either side's
`animais_estimacao` value is a string containing the label `"Alergia"`, then
`calculate_match_percentage` returns exactly `0`, regardless of every other
field: either both sides are strings and the concatenation contains
`"Alergia"` (explicit `return 0.0` veto before any further rule), or the
other side is not a string and the `+` raises, which the outer handler also
turns into `0.0`. -/
theorem alergia_veto_zero (h u : Filters) (hal : petAlergia h ∨ petAlergia u) :
    calculate_match_percentage h u = 0 := by
  unfold calculate_match_percentage
  rcases hal with ⟨s, ha, hs⟩ | ⟨s, hb, hs⟩
  · rw [ha]
    cases hu : u.animais_estimacao with
    | none => rfl
    | some v =>
      cases v with
      | vnone => rfl
      | vint n => rfl
      | vstr t =>
        have hsub : pyInStr "Alergia" (s ++ t) = true := pyInStr_append_left _ _ _ hs
        simp [petStage, hsub]
  · rw [hb]
    cases hh : h.animais_estimacao with
    | none => rfl
    | some v =>
      cases v with
      | vnone => rfl
      | vint n => rfl
      | vstr t =>
        have hsub : pyInStr "Alergia" (t ++ s) = true := pyInStr_append_right _ _ _ hs
        simp [petStage, hsub]

/-- Witness for C1: `"Alergia"` against an empty pet string scores `0`. -/
theorem alergia_veto_zero_witness :
    calculate_match_percentage alergiaFilters emptyPetStrFilters = 0 :=
  alergia_veto_zero alergiaFilters emptyPetStrFilters
    (Or.inl ⟨"Alergia", rfl, by decide⟩)

/-- C2, counterexample.  On the spec's worked example the scorer does not
return `80`: the gender dimension is counted twice (once by the wildcard,
once in the remaining-fields loop where the two popped keys compare
`None == None`), so the totals are `matched = 5`, `total = 6` and the score
is `250/3 ≈ 83.33`, not `4/5 · 100 = 80`. -/
theorem example_pair_not_80 :
    calculate_match_percentage exampleHousing exampleUniversity = 250 / 3
      ∧ (250 : Rat) / 3 ≠ 80 := by
  constructor
  · have h1 : calculate_match_percentage exampleHousing exampleUniversity = tallyScore 5 6 :=
      rfl
    rw [h1]
    norm_num [tallyScore]
  · norm_num

/-- C2, amended.  On the example pair the scorer counts `total = 6` and
`matched = 5` (pet override 1/1, gender wildcard 1/1, occupancy `2 ≤ 3` 1/1,
re-scored popped gender `None == None` 1/1, smoking equal 1/1, drinking
unequal 0/1) and returns exactly `250/3` (in exact rational arithmetic;
Python prints the float `83.33333333333334`). -/
theorem example_pair_score :
    calculate_match_percentage exampleHousing exampleUniversity =
      tallyScore 5 6 ∧ tallyScore 5 6 = 250 / 3 := by
  refine ⟨rfl, ?_⟩
  norm_num [tallyScore]

/-- C3, counterexample.  Housing gender `"Tanto faz"`/smoking `"Nunca"`
against university gender `"Só mulheres"`/smoking `"Sempre"`: were the
gender dimension counted exactly once and not re-scored, the score would be
`3/4 · 100 = 75` (wildcard 1/1, occupancy 1/1, smoking 0/1, drinking 1/1);
the code returns `80` because the popped gender field is re-scored in the
remaining-fields loop as `None == None`, giving `4/5 · 100`. -/
theorem wildcard_pair_not_single_counted :
    calculate_match_percentage wildcardHousing wildcardUniversity = 80
      ∧ (80 : Rat) ≠ 75 := by
  constructor
  · have h1 : calculate_match_percentage wildcardHousing wildcardUniversity = tallyScore 4 5 :=
      rfl
    rw [h1]
    norm_num [tallyScore]
  · norm_num

/-- C3, amended.  When either side's `preferencia_genero` equals
`"Tanto faz"`, the wildcard increments `matched` and `total` by 1 and
removes the field from both sides — but the field is then scored again in
the remaining-fields loop, where the two removed values read back as `None`
and compare equal, adding a second increment to both counters.  With the pet
block in its no-special-handling branch the denominator is therefore `5`
(not `4`), and with the pet bonus it is `6` (not `5`); the numerator gains
`1 + 1` for gender in both cases. -/
theorem gender_double_count (h u : Filters) (occ : Bool)
    (hgw : genderWildcard h.preferencia_genero u.preferencia_genero = true)
    (hocc : occStage h.numero_maximo_pessoas u.numero_maximo_pessoas = Except.ok occ) :
    (petStage h.animais_estimacao u.animais_estimacao = PetOutcome.plain →
        calculate_match_percentage h u =
          tallyScore
            (1 + b2n occ + 1 + b2n (scalarEq h.frequencia_fumo u.frequencia_fumo)
              + b2n (scalarEq h.frequencia_bebida u.frequencia_bebida)) 5)
      ∧ (petStage h.animais_estimacao u.animais_estimacao = PetOutcome.bonus →
        calculate_match_percentage h u =
          tallyScore
            (1 + 1 + b2n occ + 1 + b2n (scalarEq h.frequencia_fumo u.frequencia_fumo)
              + b2n (scalarEq h.frequencia_bebida u.frequencia_bebida)) 6) := by
  have hpop : scalarEq (popIf true h.preferencia_genero) (popIf true u.preferencia_genero)
      = true := by
    simp [popIf, scalarEq, pyGet]
  constructor
  · intro hp
    unfold calculate_match_percentage
    rw [hp, scoreAfterPets_eq false h u occ hocc, hgw, hpop]
    rw [b2n_false, b2n_true]
  · intro hp
    unfold calculate_match_percentage
    rw [hp, scoreAfterPets_eq true h u occ hocc, hgw, hpop]
    rw [b2n_true]

/-- Witness for C3: the wildcard pair scores with denominator 5. -/
theorem gender_double_count_witness :
    calculate_match_percentage wildcardHousing wildcardUniversity =
      tallyScore
        (1 + b2n true + 1
          + b2n (scalarEq wildcardHousing.frequencia_fumo wildcardUniversity.frequencia_fumo)
          + b2n (scalarEq wildcardHousing.frequencia_bebida wildcardUniversity.frequencia_bebida))
        5 :=
  (gender_double_count wildcardHousing wildcardUniversity true rfl rfl).1 rfl

/-- C6. For all filters dictionaries, the scorer's result lies in the closed
interval `[0, 100]`: every `matched` increment is accompanied by a `total`
increment, so `matched ≤ total` at the division, and all exception paths
return `0`. -/
theorem score_in_unit_interval (h u : Filters) :
    0 ≤ calculate_match_percentage h u ∧ calculate_match_percentage h u ≤ 100 := by
  unfold calculate_match_percentage
  cases petStage h.animais_estimacao u.animais_estimacao with
  | raise => norm_num
  | veto => norm_num
  | bonus => exact scoreAfterPets_bounds true h u
  | plain => exact scoreAfterPets_bounds false h u

/-- C10. The pet override tests substring membership in the concatenation of
the two cleaned values: housing `"xxAl"` and university `"ergiayy"`, neither
of which equals `"Alergia"` — indeed neither even contains it — concatenate
to `"xxAlergiayy"`, the veto fires, and the score is `0`. -/
theorem concat_substring_veto :
    calculate_match_percentage petsXxAlFilters petsErgiayyFilters = 0
      ∧ petsXxAlFilters.animais_estimacao ≠ some (PyVal.vstr "Alergia")
      ∧ petsErgiayyFilters.animais_estimacao ≠ some (PyVal.vstr "Alergia")
      ∧ pyInStr "Alergia" "xxAl" = false
      ∧ pyInStr "Alergia" "ergiayy" = false := by
  refine ⟨rfl, ?_, ?_, ?_, ?_⟩ <;> decide

/-- C4, counterexample.  For an invalid identifier the normalizer returns
the Python empty dict `{}`: the five recognized keys are *absent*, not
present with empty/zero values. -/
theorem invalid_uuid_keys_absent :
    ¬ allKeysPresent (get_filters LookupOutcome.invalidUuid) := by
  intro hk
  exact Bool.noConfusion hk.1

/-- C4, amended.  For an invalid identifier, a found-nothing lookup, or a
store error, the normalizer returns the empty mapping — all five keys absent
(under the scorer's `get`-with-default reads this acts as "no data", but the
keys are not present).  Only for a found record are all five keys present
(missing source fields present and bound to `None`). -/
theorem get_filters_failure_empty :
    (∀ o : LookupOutcome,
        o = LookupOutcome.invalidUuid ∨ o = LookupOutcome.notFound
          ∨ o = LookupOutcome.lookupError →
        get_filters o = emptyFilters)
      ∧ (∀ r : RawRecord, allKeysPresent (get_filters (LookupOutcome.found r))) := by
  constructor
  · intro o ho
    rcases ho with rfl | rfl | rfl <;> rfl
  · intro r
    exact ⟨rfl, rfl, rfl, rfl, rfl⟩

/-- Witness for C4: the invalid-UUID branch yields the empty mapping, and a
found blank record yields all five keys. -/
theorem get_filters_failure_empty_witness :
    get_filters LookupOutcome.invalidUuid = emptyFilters
      ∧ allKeysPresent (get_filters (LookupOutcome.found blankRecord)) :=
  ⟨get_filters_failure_empty.1 LookupOutcome.invalidUuid (Or.inl rfl),
   get_filters_failure_empty.2 blankRecord⟩

/-- C5, counterexample.  A found record whose `numero_maximo_pessoas` is
Python `None` makes `int(None)` raise `TypeError`, which the inner
`except ValueError` does not catch: the whole pair scores `0`, although the
claim ("treated as not matched, not fatal, remaining fields still scored")
predicts `tallyScore 3 4 = 75` here — all three remaining scalar fields of
this self-pair compare equal. -/
theorem none_occupancy_is_fatal :
    calculate_match_percentage noneOccupancyFilters noneOccupancyFilters = 0
      ∧ tallyScore 3 4 = 75 ∧ (0 : Rat) ≠ 75 := by
  refine ⟨rfl, ?_, ?_⟩
  · norm_num [tallyScore]
  · norm_num

/-- Helper: a `ValueError` coercion failure makes the occupancy block report
"no match" without raising. -/
theorem occStage_valueError (a b : Option PyVal) (hv : occValueError a b) :
    occStage a b = Except.ok false := by
  rcases hv with ⟨s, ha, hp⟩ | ⟨⟨n, hn⟩, ⟨s, hb, hp⟩⟩
  · subst ha
    simp [occStage, pyInt, hp]
  · subst hb
    unfold occStage
    rw [hn]
    simp [pyInt, hp]

/-- C5, amended.  When the occupancy coercion fails with `ValueError` — the
value is a *string* that does not parse (on the housing side, or on the
university side after the housing side coerced) — the scorer treats only the
occupancy dimension as unmatched: `total` still counts it (inside the `+ 4`)
while `matched` gets the literal `0` in the occupancy slot, and the
remaining scalar fields are still scored.  However, a `None` value raises
`TypeError` instead, which *is* fatal to the pair's score (see the
counterexample), so the claim's "including an absent/None value" part fails. -/
theorem value_error_non_fatal (h u : Filters)
    (hv : occValueError h.numero_maximo_pessoas u.numero_maximo_pessoas) :
    occStage h.numero_maximo_pessoas u.numero_maximo_pessoas = Except.ok false
      ∧ (petStage h.animais_estimacao u.animais_estimacao = PetOutcome.plain →
          calculate_match_percentage h u =
            tallyScore
              (0 + b2n (genderWildcard h.preferencia_genero u.preferencia_genero) + 0
                + b2n (scalarEq
                    (popIf (genderWildcard h.preferencia_genero u.preferencia_genero)
                      h.preferencia_genero)
                    (popIf (genderWildcard h.preferencia_genero u.preferencia_genero)
                      u.preferencia_genero))
                + b2n (scalarEq h.frequencia_fumo u.frequencia_fumo)
                + b2n (scalarEq h.frequencia_bebida u.frequencia_bebida))
              (0 + b2n (genderWildcard h.preferencia_genero u.preferencia_genero) + 4))
      ∧ (petStage h.animais_estimacao u.animais_estimacao = PetOutcome.bonus →
          calculate_match_percentage h u =
            tallyScore
              (1 + b2n (genderWildcard h.preferencia_genero u.preferencia_genero) + 0
                + b2n (scalarEq
                    (popIf (genderWildcard h.preferencia_genero u.preferencia_genero)
                      h.preferencia_genero)
                    (popIf (genderWildcard h.preferencia_genero u.preferencia_genero)
                      u.preferencia_genero))
                + b2n (scalarEq h.frequencia_fumo u.frequencia_fumo)
                + b2n (scalarEq h.frequencia_bebida u.frequencia_bebida))
              (1 + b2n (genderWildcard h.preferencia_genero u.preferencia_genero) + 4)) := by
  have hocc := occStage_valueError _ _ hv
  refine ⟨hocc, ?_, ?_⟩
  · intro hp
    unfold calculate_match_percentage
    rw [hp, scoreAfterPets_eq false h u false hocc, b2n_false]
  · intro hp
    unfold calculate_match_percentage
    rw [hp, scoreAfterPets_eq true h u false hocc, b2n_false, b2n_true]

/-- Witness for C5: occupancy `"dois"` against an empty dict is a
`ValueError`, unmatched, and the rest of the pair still scores. -/
theorem value_error_non_fatal_witness :
    occStage wordOccupancyFilters.numero_maximo_pessoas emptyFilters.numero_maximo_pessoas
        = Except.ok false
      ∧ calculate_match_percentage wordOccupancyFilters emptyFilters =
          tallyScore
            (0 + b2n (genderWildcard wordOccupancyFilters.preferencia_genero
                emptyFilters.preferencia_genero) + 0
              + b2n (scalarEq
                  (popIf (genderWildcard wordOccupancyFilters.preferencia_genero
                    emptyFilters.preferencia_genero) wordOccupancyFilters.preferencia_genero)
                  (popIf (genderWildcard wordOccupancyFilters.preferencia_genero
                    emptyFilters.preferencia_genero) emptyFilters.preferencia_genero))
              + b2n (scalarEq wordOccupancyFilters.frequencia_fumo emptyFilters.frequencia_fumo)
              + b2n (scalarEq wordOccupancyFilters.frequencia_bebida
                  emptyFilters.frequencia_bebida))
            (0 + b2n (genderWildcard wordOccupancyFilters.preferencia_genero
                emptyFilters.preferencia_genero) + 4) := by
  have H := value_error_non_fatal wordOccupancyFilters emptyFilters (Or.inl ⟨"dois", rfl, rfl⟩)
  exact ⟨H.1, H.2.1 rfl⟩

/-- C7. The ranker returns exactly one result per identifier produced by the
directory read, in directory-iteration order (first components equal the
directory list, so none is skipped) — and concretely it is *not* sorted
descending by score: a two-house directory can come back with scores
`[0, 100]`. -/
theorem rank_one_per_directory :
    (∀ (d : Except Unit (List (Option (List Nat)))) (store : String → LookupOutcome)
        (uid : String),
        (get_all_probas d store uid).map Prod.fst = get_all_houses d)
      ∧ get_all_probas twoHouseDir twoHouseStore "u0" = [(uuidZero, 0), (uuidOne, 100)] := by
  constructor
  · intro d store uid
    unfold get_all_probas
    rw [List.map_map]
    have hc : (Prod.fst ∘ fun houseId =>
        (houseId, calculate_match_percentage (get_filters (store houseId))
          (get_filters (store uid)))) = fun x : String => x := by
      funext x
      rfl
    rw [hc]
    simp
  · have h44 : tallyScore 4 4 = (100 : Rat) := by norm_num [tallyScore]
    have hstep : get_all_probas twoHouseDir twoHouseStore "u0"
        = [(uuidZero, 0), (uuidOne, tallyScore 4 4)] := rfl
    rw [hstep, h44]

/-- C8. The engine degrades failures to safe defaults: a failed directory
lookup makes the ranker return the empty list, and every run in which the
scorer's body raises (pet-block `TypeError`, or occupancy `TypeError`)
returns a score of exactly `0` through the outer handler instead of
propagating. -/
theorem engine_safe_defaults :
    (∀ (store : String → LookupOutcome) (uid : String),
        get_all_probas (Except.error ()) store uid = [])
      ∧ (∀ h u : Filters, scorerRaises h u = true → calculate_match_percentage h u = 0) := by
  constructor
  · intro store uid
    rfl
  · intro h u
    unfold scorerRaises calculate_match_percentage
    cases petStage h.animais_estimacao u.animais_estimacao with
    | raise => intro hr; rfl
    | veto => intro hr; rfl
    | bonus =>
      cases hocc : occStage h.numero_maximo_pessoas u.numero_maximo_pessoas with
      | error e =>
        cases e
        intro hr
        exact scoreAfterPets_error true h u hocc
      | ok v =>
        intro hr
        exact Bool.noConfusion hr
    | plain =>
      cases hocc : occStage h.numero_maximo_pessoas u.numero_maximo_pessoas with
      | error e =>
        cases e
        intro hr
        exact scoreAfterPets_error false h u hocc
      | ok v =>
        intro hr
        exact Bool.noConfusion hr

/-- Witness for C8: a failed directory read ranks to `[]`, and a pet value
of `None` (a `TypeError` inside the scorer) scores `0`. -/
theorem engine_safe_defaults_witness :
    get_all_probas (Except.error ()) twoHouseStore "u0" = []
      ∧ calculate_match_percentage nonePetFilters emptyFilters = 0 :=
  ⟨engine_safe_defaults.1 twoHouseStore "u0",
   engine_safe_defaults.2 nonePetFilters emptyFilters rfl⟩

/-- C9, counterexample.  Swapping the roles changes the score even with
equal (here: both absent, so both `int(0)`) occupancy values: pets `"Al"`
versus pets `"ergia"` concatenate to `"Alergia"` in one order (veto, score
`0`) and to `"ergiaAl"` in the other (no veto, score `100`). -/
theorem swap_changes_score :
    petsAlFilters.numero_maximo_pessoas = petsErgiaFilters.numero_maximo_pessoas
      ∧ calculate_match_percentage petsAlFilters petsErgiaFilters = 0
      ∧ calculate_match_percentage petsErgiaFilters petsAlFilters = 100 := by
  refine ⟨rfl, rfl, ?_⟩
  have hstep : calculate_match_percentage petsErgiaFilters petsAlFilters = tallyScore 4 4 :=
    rfl
  rw [hstep]
  norm_num [tallyScore]

/-- Helper: the gender wildcard test is symmetric in its two sides. -/
theorem genderWildcard_comm (a b : Option PyVal) : genderWildcard a b = genderWildcard b a := by
  simp [genderWildcard, Bool.or_comm]

/-- Helper: the remaining-fields equality test is symmetric. -/
theorem scalarEq_comm (a b : Option PyVal) : scalarEq a b = scalarEq b a := by
  unfold scalarEq
  exact decide_eq_decide.mpr eq_comm

/-- Helper: with equal occupancy values the post-pet score is symmetric. -/
theorem scoreAfterPets_comm (pb : Bool) (h u : Filters)
    (hnum : h.numero_maximo_pessoas = u.numero_maximo_pessoas) :
    scoreAfterPets pb h u = scoreAfterPets pb u h := by
  cases hocc : occStage u.numero_maximo_pessoas u.numero_maximo_pessoas with
  | error e =>
    cases e
    have h1 : occStage h.numero_maximo_pessoas u.numero_maximo_pessoas = Except.error () := by
      rw [hnum]; exact hocc
    have h2 : occStage u.numero_maximo_pessoas h.numero_maximo_pessoas = Except.error () := by
      rw [hnum]; exact hocc
    rw [scoreAfterPets_error pb h u h1, scoreAfterPets_error pb u h h2]
  | ok occ =>
    have h1 : occStage h.numero_maximo_pessoas u.numero_maximo_pessoas = Except.ok occ := by
      rw [hnum]; exact hocc
    have h2 : occStage u.numero_maximo_pessoas h.numero_maximo_pessoas = Except.ok occ := by
      rw [hnum]; exact hocc
    rw [scoreAfterPets_eq pb h u occ h1, scoreAfterPets_eq pb u h occ h2]
    rw [genderWildcard_comm u.preferencia_genero h.preferencia_genero]
    rw [scalarEq_comm (popIf _ u.preferencia_genero) (popIf _ h.preferencia_genero)]
    rw [scalarEq_comm u.frequencia_fumo h.frequencia_fumo]
    rw [scalarEq_comm u.frequencia_bebida h.frequencia_bebida]

/-- C9, amended.  Swapping the candidate and seeker roles preserves the
score when the occupancy values are equal *and* the pet block resolves the
same way in both orders (the pet substring tests run on the concatenation of
the two values, so they are not automatically symmetric — see the
counterexample); every other rule is a symmetric equality or disjunction. -/
theorem swap_equal_occupancy (h u : Filters)
    (hnum : h.numero_maximo_pessoas = u.numero_maximo_pessoas)
    (hpet : petStage h.animais_estimacao u.animais_estimacao
      = petStage u.animais_estimacao h.animais_estimacao) :
    calculate_match_percentage h u = calculate_match_percentage u h := by
  unfold calculate_match_percentage
  rw [hpet]
  cases petStage u.animais_estimacao h.animais_estimacao with
  | raise => rfl
  | veto => rfl
  | bonus => exact scoreAfterPets_comm true h u hnum
  | plain => exact scoreAfterPets_comm false h u hnum

/-- Witness for C9: two one-field dictionaries with equal (absent) occupancy
score the same in both orders. -/
theorem swap_equal_occupancy_witness :
    calculate_match_percentage smokeOnlyFilters drinkOnlyFilters
      = calculate_match_percentage drinkOnlyFilters smokeOnlyFilters :=
  swap_equal_occupancy smokeOnlyFilters drinkOnlyFilters rfl rfl
